import Mathlib

/-!
Verification development for the Sym_Cat live multimodal relay
(`src/api/services/gemini_live.py`, `src/api/routers/gemini_live.py`,
`src/api/test_live.py`).

The relay code is shallowly embedded: Python dicts exchanged on the wire
become a `Json` inductive, `json.dumps` becomes `dumps` (compact default
separators, `ensure_ascii` escaping), and each relevant Python function
becomes a Lean function over those values.  Cooperative concurrency (the
mic pump, the speaker pump, and tool dispatch) is embedded as explicit
event traces folded over a state, with one event per scheduler step.
-/

namespace SymCat

/-- Python JSON values as produced/consumed by the relay.  Numbers are
modelled as integers: every numeric field in the relay payloads
(`task_id`, `finding_number`, quantities, close codes) is an int. -/
inductive Json where
  | null : Json
  | bool : Bool → Json
  | num : Int → Json
  | str : String → Json
  | arr : List Json → Json
  | obj : List (String × Json) → Json
deriving Repr

/-- First-match lookup in an association list of JSON object fields. -/
def lookupFields : List (String × Json) → String → Option Json
  | [], _ => none
  | (k', v) :: rest, k => if k' = k then some v else lookupFields rest k

/-- Python `dict.get(key)` on a JSON object: first binding wins (keys of a
Python dict are unique, so first-match lookup agrees).  On a non-object the
model returns `none` where Python would raise; call sites note this. -/
def jlookup : Json → String → Option Json
  | .obj fs, k => lookupFields fs k
  | _, _ => none

/-- Python `dict.get(key, default)`. -/
def jgetD (j : Json) (k : String) (dflt : Json) : Json :=
  (jlookup j k).getD dflt

/-- Python `dict.get(key, default)` where the call site expects a string
value; a non-string value falls back to the default. -/
def jgetStrD (j : Json) (k : String) (dflt : String) : String :=
  match jlookup j k with
  | some (.str s) => s
  | _ => dflt

/-- Python truthiness of a JSON value (`if server_content:` etc.). -/
def jtruthy : Json → Bool
  | .null => false
  | .bool b => b
  | .num n => n != 0
  | .str s => !s.isEmpty
  | .arr xs => !xs.isEmpty
  | .obj fs => !fs.isEmpty

/-- Hex digit for `\uXXXX` escapes. -/
def hexDigit (n : Nat) : Char :=
  if n < 10 then Char.ofNat (48 + n) else Char.ofNat (87 + n)

/-- Four-digit lowercase hex, as CPython json writes `\uXXXX`. -/
def hex4 (n : Nat) : String :=
  String.mk [hexDigit (n / 4096 % 16), hexDigit (n / 256 % 16),
             hexDigit (n / 16 % 16), hexDigit (n % 16)]

/-- CPython `json.dumps` escaping of one character with the default
`ensure_ascii=True`: printable ASCII other than quote and backslash is kept,
the short escapes are used where they exist, everything else becomes
`\uXXXX` (with surrogate pairs above U+FFFF). -/
def escChar (c : Char) : String :=
  if c = '"' then "\\\""
  else if c = '\\' then "\\\\"
  else if c = '\n' then "\\n"
  else if c = '\r' then "\\r"
  else if c = '\t' then "\\t"
  else if c.val = 8 then "\\b"
  else if c.val = 12 then "\\f"
  else if 32 ≤ c.val ∧ c.val ≤ 126 then String.mk [c]
  else if c.val < 65536 then "\\u" ++ hex4 c.toNat
  else
    let v := c.toNat - 65536
    "\\u" ++ hex4 (55296 + v / 1024) ++ "\\u" ++ hex4 (56320 + v % 1024)

/-- Escape a whole string (body of a JSON string literal). -/
def escString (s : String) : String :=
  s.data.foldr (fun c acc => escChar c ++ acc) ""

mutual
/-- CPython `json.dumps(x)` with default arguments: separators
`", "` and `": "`, `ensure_ascii=True`. -/
def dumps : Json → String
  | .null => "null"
  | .bool true => "true"
  | .bool false => "false"
  | .num n => toString n
  | .str s => "\"" ++ (escString s ++ "\"")
  | .arr xs => "[" ++ (dumpsList xs ++ "]")
  | .obj fs => "\x7b" ++ (dumpsFields fs ++ "\x7d")

/-- Comma-separated serialization of array elements. -/
def dumpsList : List Json → String
  | [] => ""
  | [x] => dumps x
  | x :: y :: xs => dumps x ++ (", " ++ dumpsList (y :: xs))

/-- Comma-separated serialization of object fields. -/
def dumpsFields : List (String × Json) → String
  | [] => ""
  | [(k, v)] => "\"" ++ (escString k ++ ("\": " ++ dumps v))
  | (k, v) :: f :: fs =>
      "\"" ++ (escString k ++ ("\": " ++ (dumps v ++ (", " ++ dumpsFields (f :: fs)))))
end

/-- Python string slice `s[:n]` (by characters; after `dumps` with
`ensure_ascii` the text is pure ASCII so characters and bytes agree). -/
def pyTake (s : String) (n : Nat) : String :=
  String.mk (s.data.take n)

-- ---------------------------------------------------------------------------
-- Tool-call dispatch (`test_live.py`, `_handle_tool_call`, lines 729-774)
-- ---------------------------------------------------------------------------

/-- `types.FunctionResponse(id=..., name=..., response=...)` sent via
`session.send_tool_response`. -/
structure FunctionResponse where
  id : String
  name : String
  response : Json
deriving Repr

/-- The size cap applied to a successful tool result before it is sent
(`test_live.py` lines 737-744): serialize, and if the serialization exceeds
2000 characters replace the payload by the status/component/summary shape,
`summary` being the first 800 characters of the serialization. -/
def capToolResult (tool_result : Json) : Json :=
  let serialized := dumps tool_result
  if serialized.length > 2000 then
    Json.obj [("status", jgetD tool_result "status" (Json.str "complete")),
              ("component", jgetD tool_result "component" (Json.str "")),
              ("summary", Json.str (pyTake serialized 800))]
  else tool_result

/-- Observable outcome of one `_handle_tool_call` run: the gate state while
the executor runs (`_tool_idle.clear()` at entry), the function response
sent to Gemini, and the gate state after the `finally` block
(`_tool_idle.set()`). -/
structure ToolCallOutcome where
  gateIdleDuringExec : Bool
  sent : FunctionResponse
  gateIdleAfter : Bool
deriving Repr

/-- `test_live.py` `_handle_tool_call` (lines 729-774).  The executor is
abstracted as its result: `Except.ok` models `execute_tool` returning a
dict, `Except.error e` models it raising an exception rendered as `str(e)`.
On success the capped result is sent; on exception the synthetic
`{"error": f"Tool call failed: {e}"}` response is sent; the `finally`
block re-sets the gate on both paths. -/
def handle_tool_call (fnId fnName : String) (execResult : Except String Json) :
    ToolCallOutcome :=
  match execResult with
  | .ok tool_result =>
      { gateIdleDuringExec := false
        sent := { id := fnId, name := fnName, response := capToolResult tool_result }
        gateIdleAfter := true }
  | .error e =>
      { gateIdleDuringExec := false
        sent := { id := fnId, name := fnName
                  response := Json.obj [("error", Json.str ("Tool call failed: " ++ e))] }
        gateIdleAfter := true }

-- ---------------------------------------------------------------------------
-- Configuration (`services/gemini_live.py`, lines 30-57 and 159-217)
-- ---------------------------------------------------------------------------

/-- Process-wide default model id: the fallback of
`os.getenv("GEMINI_MODEL", ...)` when the variable is unset. -/
def GEMINI_MODEL : String := "gemini-2.5-flash-native-audio-preview-12-2025"

/-- Process-wide default voice id: the fallback of
`os.getenv("GEMINI_VOICE", "Charon")`. -/
def GEMINI_VOICE : String := "Charon"

/-- `DEFAULT_SYSTEM_PROMPT` from `services/gemini_live.py` lines 159-188. -/
def DEFAULT_SYSTEM_PROMPT : String :=
  "You are an AI inspection assistant for CAT heavy equipment.\n\nFLOW:\n1. When the user describes damage or mentions a component, call run_inspection immediately.\n   The inspection takes 30-60 seconds (AI vision on GPU). Tell the user\n   \"Running the inspection now, this will take about 30 seconds\" and WAIT\n   patiently for the tool response. Do NOT call the tool again.\n\n2. After getting inspection results, read each finding with its NUMBER, severity, and issue.\n   Example: \"Finding 1: FAIL — severe rim corrosion. Finding 2: MONITOR — missing lug nut.\"\n   Then ask: \"Would you like to correct or remove any findings before I save them?\"\n\n3. If the inspector wants to change something (e.g. \"finding 1 is not rust, it\x27s a scratch\",\n   \"change finding 2 to fail\", \"remove finding 3\"), call edit_findings for each change.\n   After editing, read back the updated findings and ask again if they look correct.\n\n4. When the inspector confirms the findings are correct, ask:\n   \"Should I save these findings to the task database?\"\n   If yes, call report_anomalies with confirmed=true.\n   If no, call report_anomalies with confirmed=false.\n\n5. After reporting, tell the user what parts are needed and ask:\n   \"Should I check inventory and order replacement parts?\"\n   If yes, call order_parts with confirmed=true.\n   If no, call order_parts with confirmed=false.\n\nKeep responses short and clear.\nCurrent equipment: CAT-320-002, task_id=1, inspection_id=5.\n"

/-- Helper: a function-declaration object, used to spell out
`DEFAULT_TOOL_DECLARATIONS` below. -/
def fnDecl (name descr : String) (props : List (String × Json)) (req : List String) : Json :=
  Json.obj [("name", Json.str name),
            ("description", Json.str descr),
            ("parameters", Json.obj [("type", Json.str "OBJECT"),
                                     ("properties", Json.obj props),
                                     ("required", Json.arr (req.map Json.str))])]

/-- Helper: a `{"type": ..., "description": ...}` schema leaf. -/
def schemaLeaf (ty descr : String) : Json :=
  Json.obj [("type", Json.str ty), ("description", Json.str descr)]

/-- `DEFAULT_TOOL_DECLARATIONS` from `services/gemini_live.py` lines 64-157. -/
def DEFAULT_TOOL_DECLARATIONS : Json :=
  Json.obj [("function_declarations", Json.arr [
    fnDecl "run_inspection"
      ("Run an AI inspection on a CAT equipment component. " ++
       "Call this when the user describes damage or asks to inspect something.")
      [("voice_text", schemaLeaf "STRING" "What the inspector said about the damage"),
       ("equipment_id", schemaLeaf "STRING" "Equipment ID e.g. CAT-320-002")]
      ["voice_text"],
    fnDecl "report_anomalies"
      ("Save the inspection findings (anomalies) to the task database. " ++
       "Call this AFTER run_inspection when the inspector confirms " ++
       "they want to report the findings.")
      [("confirmed", schemaLeaf "BOOLEAN" "True if the inspector confirmed reporting")]
      ["confirmed"],
    fnDecl "edit_findings"
      ("Modify an inspection finding. Use when the inspector wants to correct, " ++
       "change severity, or remove a finding. Call BEFORE report_anomalies.")
      [("action", schemaLeaf "STRING" "\x27update\x27 to change a finding, \x27remove\x27 to delete it"),
       ("finding_number", schemaLeaf "INTEGER" "Which finding to edit (1, 2, 3, etc.)"),
       ("new_issue", schemaLeaf "STRING" "New issue text (for update action)"),
       ("new_severity", schemaLeaf "STRING" "New severity: fail, monitor, normal, or pass"),
       ("new_description", schemaLeaf "STRING" "New description text (for update action)")]
      ["action", "finding_number"],
    fnDecl "order_parts"
      ("Check inventory and order replacement parts for the inspection. " ++
       "Call this AFTER report_anomalies when the inspector confirms " ++
       "they want to order parts.")
      [("confirmed", schemaLeaf "BOOLEAN" "True if the inspector confirmed ordering parts")]
      ["confirmed"]])]

/-- `LiveSessionConfig` dataclass (`services/gemini_live.py` lines 47-57).
`tools` is kept as a JSON value because the router stores the raw
`msg.get("tools", [])` there; the dataclass default is the empty list. -/
structure LiveSessionConfig where
  model : String := GEMINI_MODEL
  voice : String := GEMINI_VOICE
  system_prompt : String := ""
  tools : Json := Json.arr []
  response_modalities : List String := ["AUDIO"]
deriving Repr

/-- `LiveSessionConfig()` with every field defaulted. -/
def defaultConfig : LiveSessionConfig := {}

/-- `build_setup_message` (`services/gemini_live.py` lines 195-217). -/
def build_setup_message (config : LiveSessionConfig) : Json :=
  Json.obj [("setup", Json.obj [
    ("model", Json.str ("models/" ++ config.model)),
    ("generation_config", Json.obj [
      ("response_modalities", Json.arr (config.response_modalities.map Json.str)),
      ("speech_config", Json.obj [
        ("voice_config", Json.obj [
          ("prebuilt_voice_config", Json.obj [
            ("voice_name", Json.str config.voice)])])])]),
    ("system_instruction", Json.obj [
      ("parts", Json.arr [Json.obj [("text",
        Json.str (if config.system_prompt.isEmpty then DEFAULT_SYSTEM_PROMPT
                  else config.system_prompt))]])]),
    ("tools", Json.arr [
      if jtruthy config.tools then config.tools else DEFAULT_TOOL_DECLARATIONS])])]

/-- Follow a path of keys through nested JSON objects. -/
def jpath : Json → List String → Option Json
  | j, [] => some j
  | j, k :: ks => match jlookup j k with
    | some v => jpath v ks
    | none => none

-- ---------------------------------------------------------------------------
-- Base64 (Python `base64.b64encode` / `b64decode`)
-- ---------------------------------------------------------------------------

/-- The standard base64 alphabet. -/
def b64Alphabet : List Char :=
  "ABCDEFGHIJKLMNOPQRSTUVWXYZabcdefghijklmnopqrstuvwxyz0123456789+/".data

/-- Sextet value to base64 character. -/
def b64char (n : Nat) : Char := b64Alphabet.getD n 'A'

/-- `base64.b64encode` on a byte sequence (values < 256), with padding. -/
def b64encode : List Nat → String
  | [] => ""
  | [a] => String.mk [b64char (a / 4), b64char (a % 4 * 16), '=', '=']
  | [a, b] => String.mk [b64char (a / 4), b64char (a % 4 * 16 + b / 16),
                         b64char (b % 16 * 4), '=']
  | a :: b :: c :: rest =>
      String.mk [b64char (a / 4), b64char (a % 4 * 16 + b / 16),
                 b64char (b % 16 * 4 + c / 64), b64char (c % 64)] ++ b64encode rest

/-- Base64 character to sextet value. -/
def b64val (c : Char) : Nat := ((b64Alphabet.indexOf c) : Nat)

/-- `base64.b64decode` on well-formed input (quad groups, `=` padding). -/
def b64decodeChars : List Char → List Nat
  | a :: b :: c :: d :: rest =>
      let n := b64val a * 262144 + b64val b * 4096 + b64val c * 64 + b64val d
      let bytes := [n / 65536, n / 256 % 256, n % 256]
      (if d = '=' then (if c = '=' then bytes.take 1 else bytes.take 2) else bytes)
        ++ b64decodeChars rest
  | _ => []

/-- `base64.b64decode` on a string. -/
def b64decode (s : String) : List Nat := b64decodeChars s.data

-- ---------------------------------------------------------------------------
-- Wire messages
-- ---------------------------------------------------------------------------

/-- One inbound client WebSocket frame.  `binary` is a raw binary frame
(byte values < 256); `text j` is a text frame whose body parses as the JSON
value `j`; `badText` is a text frame on which `json.loads` raises. -/
inductive ClientMsg where
  | binary : List Nat → ClientMsg
  | text : Json → ClientMsg
  | badText : ClientMsg
deriving Repr

/-- One outbound frame to the client, as sent by the router and relay
(`send_json` / `send_bytes` payloads). -/
inductive ClientFrame where
  | binaryAudio : List Nat → ClientFrame
  | jsonAudio : Json → Json → ClientFrame
  | transcript : Json → ClientFrame
  | turnComplete : ClientFrame
  | interrupted : ClientFrame
  | toolCall : Json → ClientFrame
  | sessionReady : String → String → ClientFrame
  | error : String → ClientFrame
deriving Repr

-- ---------------------------------------------------------------------------
-- Config negotiation (`routers/gemini_live.py`, lines 75-95)
-- ---------------------------------------------------------------------------

/-- Outcome of the 2-second config negotiation: the chosen config, and the
client message (if any) that `ws.receive_text()` consumed during the wait
without being handed on to the relay. -/
structure Negotiation where
  config : LiveSessionConfig
  dropped : Option ClientMsg
deriving Repr

/-- The negotiation block of `gemini_live_relay` (router lines 75-95).
The argument is the first client message to arrive inside the 2 s window,
`none` when the window elapses with no message.

* Timeout ⇒ defaults (the `except` branch).
* A binary frame ⇒ `ws.receive_text()` raises after consuming the frame ⇒
  the `except` branch uses defaults and the frame is gone.
* Unparseable text ⇒ `json.loads` raises ⇒ defaults, frame gone.
* Text whose `type` is `"config"` ⇒ field-by-field override; the
  constructor omits `response_modalities`, so the dataclass default
  `["AUDIO"]` is used.
* Any other text ⇒ the `else` branch: defaults; the code only logs —
  nothing re-injects the message, so it is recorded here as dropped. -/
def negotiate : Option ClientMsg → Negotiation
  | none => { config := defaultConfig, dropped := none }
  | some (.binary bs) => { config := defaultConfig, dropped := some (.binary bs) }
  | some .badText => { config := defaultConfig, dropped := some .badText }
  | some (.text j) =>
      match jlookup j "type" with
      | some (.str "config") =>
          { config := { model := jgetStrD j "model" GEMINI_MODEL
                        voice := jgetStrD j "voice" GEMINI_VOICE
                        system_prompt := jgetStrD j "system_prompt" DEFAULT_SYSTEM_PROMPT
                        tools := jgetD j "tools" (Json.arr []) }
            dropped := none }
      | _ => { config := defaultConfig, dropped := some (.text j) }

-- ---------------------------------------------------------------------------
-- Uplink loop (`services/gemini_live.py`, `_uplink_loop`, lines 331-426)
-- ---------------------------------------------------------------------------

/-- What `_uplink_loop` does with one client frame. -/
inductive UplinkAction where
  | send : Json → UplinkAction
  | skip : UplinkAction
  | endSession : UplinkAction
  | fail : UplinkAction
deriving Repr

/-- A `{"realtime_input": {"media_chunks": [{"data": ..., "mime_type": ...}]}}`
message. -/
def realtimeChunk (data mime : Json) : Json :=
  Json.obj [("realtime_input", Json.obj [
    ("media_chunks", Json.arr [Json.obj [("data", data), ("mime_type", mime)]])])]

/-- One iteration of `_uplink_loop` on a received frame:

* nonempty binary frame ⇒ base64-encode and forward as a realtime audio
  chunk with the fixed capture format `audio/pcm;rate=16000`;
* empty binary frame ⇒ falls through to the text branch, `raw.get("text")`
  is falsy ⇒ `continue`;
* unparseable text ⇒ `json.loads` raises, the `except` of the loop ends it;
* `type=audio` / `type=image` ⇒ forward a realtime chunk with
  `msg["data"]` (a `KeyError` if absent ends the loop) and the declared or
  default mime type;
* `type=tool_response` ⇒ wrap `msg["function_responses"]` verbatim;
* `type=end_session` ⇒ return (clean end);
* anything else ⇒ forward the message unchanged. -/
def uplinkStep : ClientMsg → UplinkAction
  | .binary [] => .skip
  | .binary (b :: bs) =>
      .send (realtimeChunk (Json.str (b64encode (b :: bs)))
                           (Json.str "audio/pcm;rate=16000"))
  | .badText => .fail
  | .text j =>
      match jlookup j "type" with
      | some (.str "audio") =>
          match jlookup j "data" with
          | some d => .send (realtimeChunk d (jgetD j "mime_type" (Json.str "audio/pcm;rate=16000")))
          | none => .fail
      | some (.str "image") =>
          match jlookup j "data" with
          | some d => .send (realtimeChunk d (jgetD j "mime_type" (Json.str "image/jpeg")))
          | none => .fail
      | some (.str "tool_response") =>
          match jlookup j "function_responses" with
          | some frs => .send (Json.obj [("tool_response",
                          Json.obj [("function_responses", frs)])])
          | none => .fail
      | some (.str "end_session") => .endSession
      | _ => .send j

/-- The uplink loop over a stream of client frames: the messages it sends
to Gemini, in order.  `endSession` and an exception both end the loop. -/
def uplinkRun : List ClientMsg → List Json
  | [] => []
  | m :: rest =>
      match uplinkStep m with
      | .send g => g :: uplinkRun rest
      | .skip => uplinkRun rest
      | .endSession => []
      | .fail => []

-- ---------------------------------------------------------------------------
-- Relay start and teardown (`services/gemini_live.py`, lines 249-325)
-- ---------------------------------------------------------------------------

/-- Observable outcome of `GeminiLiveRelay.start`: the control frames the
relay itself sends to the client, whether the two pump loops were started,
everything sent on the upstream socket, and whether `close()` ran. -/
structure RelayOutcome where
  userFrames : List ClientFrame
  loopsStarted : Bool
  upstreamSent : List Json
  closed : Bool
deriving Repr

/-- `GeminiLiveRelay.start` (lines 249-311), with the upstream socket
abstracted: `setupAck` is the message received by the 15-second
`asyncio.wait_for(self.gemini_ws.recv(), timeout=15)`, `none` when it
times out; `clientMsgs` are the frames the uplink loop will receive.

On timeout the `except asyncio.TimeoutError` branch sends exactly one
error frame to the client and the `finally` runs `close()` — the pump
loops are never created.  On acknowledgement the relay sends the
`session_ready` notification and runs the loops; `close()` runs on exit
either way.  (`userFrames` lists the frames issued by `start` itself; the
frames the downlink loop produces are modelled by `downlinkHandle`.) -/
def relay_start (config : LiveSessionConfig) (setupAck : Option Json)
    (clientMsgs : List ClientMsg) : RelayOutcome :=
  let setupMsg := build_setup_message config
  match setupAck with
  | none =>
      { userFrames := [.error "Gemini setup timed out — check API key"]
        loopsStarted := false
        upstreamSent := [setupMsg]
        closed := true }
  | some _ =>
      { userFrames := [.sessionReady config.model config.voice]
        loopsStarted := true
        upstreamSent := setupMsg :: uplinkRun clientMsgs
        closed := true }

/-- The mutable teardown state of a `GeminiLiveRelay`: the `_closed` flag,
whether the pump tasks have been cancelled, and whether the upstream
socket is still open. -/
structure RelayCloseState where
  closed : Bool
  tasksCancelled : Bool
  geminiOpen : Bool
deriving Repr, DecidableEq

/-- `GeminiLiveRelay.close` (lines 313-325): an early return when
`_closed` is already set; otherwise set the flag, cancel the tasks and
close the upstream socket (the close itself is wrapped in
`try/except pass`, so the function never raises — it is total here). -/
def close (s : RelayCloseState) : RelayCloseState :=
  if s.closed then s
  else { closed := true, tasksCancelled := true, geminiOpen := false }

-- ---------------------------------------------------------------------------
-- Router endpoint (`routers/gemini_live.py`, `gemini_live_relay`, lines 47-109)
-- ---------------------------------------------------------------------------

/-- Observable outcome of one `/ws/live` connection. -/
structure RouterOutcome where
  clientFrames : List ClientFrame
  clientCloseCode : Option Nat
  upstreamAttempted : Bool
  config : Option LiveSessionConfig
  droppedDuringNegotiation : Option ClientMsg
  upstreamSent : List Json
  loopsStarted : Bool
deriving Repr

/-- The `/ws/live` endpoint (router lines 47-109).  `apiKey` is the
`GEMINI_API_KEY` value; `firstWindowMsg` is the message arriving inside
the 2 s negotiation window (`none` = window elapsed); `setupAck` and
`laterMsgs` feed `relay_start`.

With no API key the endpoint sends one structured error frame, closes the
socket with code 4001 and returns — the negotiation never runs and no
upstream connection is attempted.  Otherwise it negotiates a config and
hands over to `GeminiLiveRelay.start`. -/
def gemini_live_relay (apiKey : String) (firstWindowMsg : Option ClientMsg)
    (setupAck : Option Json) (laterMsgs : List ClientMsg) : RouterOutcome :=
  if apiKey.isEmpty then
    { clientFrames := [.error "GEMINI_API_KEY not configured on server"]
      clientCloseCode := some 4001
      upstreamAttempted := false
      config := none
      droppedDuringNegotiation := none
      upstreamSent := []
      loopsStarted := false }
  else
    let n := negotiate firstWindowMsg
    let r := relay_start n.config setupAck laterMsgs
    { clientFrames := r.userFrames
      clientCloseCode := none
      upstreamAttempted := true
      config := some n.config
      droppedDuringNegotiation := n.dropped
      upstreamSent := r.upstreamSent
      loopsStarted := r.loopsStarted }

-- ---------------------------------------------------------------------------
-- Downlink loop (`services/gemini_live.py`, `_downlink_loop`, lines 432-512)
-- ---------------------------------------------------------------------------

/-- Does `pat` occur at the head of the character list? -/
def leadMatch : List Char → List Char → Bool
  | [], _ => true
  | _ :: _, [] => false
  | p :: ps, c :: cs => p = c && leadMatch ps cs

/-- Does `pat` occur anywhere in the character list? -/
def subMatch (pat : List Char) : List Char → Bool
  | [] => leadMatch pat []
  | c :: cs => leadMatch pat (c :: cs) || subMatch pat cs

/-- Python substring test `pat in s`. -/
def strContainsSub (s pat : String) : Bool := subMatch pat.data s.data

/-- One model-turn part (`_downlink_loop` lines 456-481): the frames it
sends, paired with a raised flag (`true` = the iteration raised, ending
the whole downlink loop via its outer `except`).

* `part.get("inlineData")` raises `AttributeError` when the part is not a
  dict — nothing of this part is sent and the loop ends;
* a truthy non-dict `inlineData` likewise raises at
  `inline_data.get("data", "")`, which sits outside the inner `try`;
* for a dict `inlineData`, a non-string `data` value makes
  `base64.b64decode` raise inside the inner `try`, falling back to the
  JSON audio frame that carries the raw value; failures of `send_bytes`
  (and of `b64decode` on an ill-padded string) are modelled by
  `binaryOk`;
* `"text" in part` is plain key membership on the (dict) part and yields
  a transcript frame. -/
def downlinkPartFrames (binaryOk : Bool) (part : Json) : List ClientFrame × Bool :=
  match part with
  | Json.obj _ =>
      let inlineRes : List ClientFrame × Bool :=
        match jlookup part "inlineData" with
        | some idata =>
            if jtruthy idata then
              match idata with
              | Json.obj _ =>
                  let audio_b64 := jgetD idata "data" (Json.str "")
                  let mime := jgetD idata "mimeType" (Json.str "audio/pcm;rate=24000")
                  match audio_b64 with
                  | Json.str s =>
                      if binaryOk then ([ClientFrame.binaryAudio (b64decode s)], false)
                      else ([ClientFrame.jsonAudio (Json.str s) mime], false)
                  | other => ([ClientFrame.jsonAudio other mime], false)
              | _ => ([], true)
            else ([], false)
        | none => ([], false)
      if inlineRes.2 then inlineRes
      else
        match jlookup part "text" with
        | some t => (inlineRes.1 ++ [ClientFrame.transcript t], false)
        | none => (inlineRes.1, false)
  | _ => ([], true)

/-- The `for part in model_turn["parts"]` loop: frames sent part by part,
in order, until one part raises — the earlier frames are already sent
when the loop ends. -/
def downlinkParts (binaryOk : Bool) : List Json → List ClientFrame × Bool
  | [] => ([], false)
  | part :: rest =>
      match downlinkPartFrames binaryOk part with
      | (fs, true) => (fs, true)
      | (fs, false) =>
          match downlinkParts binaryOk rest with
          | (fs2, r) => (fs ++ fs2, r)

/-- The `model_turn and "parts" in model_turn` block for a truthy
`model_turn` (`_downlink_loop` lines 454-456):

* dict: key membership, then iterate `model_turn["parts"]` — a list is
  iterated part by part; an empty string or empty dict iterates zero
  times; a nonempty string or dict yields string elements, so the first
  `part.get` raises; `None`, booleans and numbers are not iterable and
  raise at the `for`;
* string: `"parts" in model_turn` is a substring test, and when it holds
  `model_turn["parts"]` raises `TypeError` (string indices are ints);
* list: `"parts" in model_turn` is an element test against the string
  `"parts"`, and when it holds the subscript raises `TypeError`;
* other truthy values: the `in` itself raises `TypeError`. -/
def downlinkModelTurn (binaryOk : Bool) (mt : Json) : List ClientFrame × Bool :=
  match mt with
  | Json.obj _ =>
      match jlookup mt "parts" with
      | some (Json.arr parts) => downlinkParts binaryOk parts
      | some (Json.str s) => if s.isEmpty then ([], false) else ([], true)
      | some (Json.obj fs) => if fs.isEmpty then ([], false) else ([], true)
      | some _ => ([], true)
      | none => ([], false)
  | Json.str s => if strContainsSub s "parts" then ([], true) else ([], false)
  | Json.arr xs =>
      if xs.any (fun x => match x with | Json.str s => s == "parts" | _ => false)
      then ([], true) else ([], false)
  | _ => ([], true)

/-- `model_turn = server_content.get("modelTurn")` followed by the
`if model_turn and "parts" in model_turn:` guard on a dict
`serverContent`. -/
def downlinkTurnRes (binaryOk : Bool) (sc : Json) : List ClientFrame × Bool :=
  match jlookup sc "modelTurn" with
  | some mt => if jtruthy mt then downlinkModelTurn binaryOk mt else ([], false)
  | none => ([], false)

/-- The `if server_content:` block for a truthy `serverContent`
(`_downlink_loop` lines 453-493): `server_content.get("modelTurn")`
raises on a truthy non-dict; otherwise the model-turn frames are sent
first and, when no part raised, a `turn_complete` frame on truthy
`turnComplete` and an `interrupted` frame on truthy `interrupted`. -/
def downlinkServerContent (binaryOk : Bool) (sc : Json) : List ClientFrame × Bool :=
  match sc with
  | Json.obj _ =>
      let partRes := downlinkTurnRes binaryOk sc
      if partRes.2 then partRes
      else
        let tcFrames :=
          if jtruthy (jgetD sc "turnComplete" Json.null) then
            [ClientFrame.turnComplete] else []
        let intrFrames :=
          if jtruthy (jgetD sc "interrupted" Json.null) then
            [ClientFrame.interrupted] else []
        (partRes.1 ++ tcFrames ++ intrFrames, false)
  | _ => ([], true)

/-- One iteration of `_downlink_loop` on a parsed upstream message: the
frames forwarded to the client in send order, paired with a raised flag
(`true` = this iteration raised and the downlink loop ends; the frames
listed were sent before the raise).  `data.get` raises on a non-dict
message; the `serverContent` block runs first, then a truthy `toolCall`
yields a `tool_call` frame — `tool_call.get` raising on a truthy
non-dict after the server-content frames were already sent. -/
def downlinkHandle (binaryOk : Bool) (data : Json) : List ClientFrame × Bool :=
  match data with
  | Json.obj _ =>
      let scRes : List ClientFrame × Bool :=
        match jlookup data "serverContent" with
        | some sc =>
            if jtruthy sc then downlinkServerContent binaryOk sc else ([], false)
        | none => ([], false)
      if scRes.2 then scRes
      else
        match jlookup data "toolCall" with
        | some tc =>
            if jtruthy tc then
              match tc with
              | Json.obj _ =>
                  (scRes.1 ++ [ClientFrame.toolCall (jgetD tc "functionCalls" (Json.arr []))],
                   false)
              | _ => (scRes.1, true)
            else (scRes.1, false)
        | none => (scRes.1, false)
  | _ => ([], true)

-- ---------------------------------------------------------------------------
-- The Tool-Call Gate and the mic pump as an event trace
-- (`test_live.py`: `_tool_idle` lines 693-694, `send_mic_to_gemini`
-- lines 716-722, `_handle_tool_call` lines 731 and 773, `play_speaker`
-- lines 812-830)
-- ---------------------------------------------------------------------------

/-- One scheduler step touching the mic path.  `frame` is
`send_mic_to_gemini` dequeuing the next mic chunk (the chunk is identified
by the position of its event in the trace); `acquire`/`release` are
`_tool_idle.clear()` / `_tool_idle.set()` from `_handle_tool_call`;
`playStart`/`playStop` are `play_speaker` toggling `is_playing`. -/
inductive MicEvent where
  | frame : MicEvent
  | acquire : MicEvent
  | release : MicEvent
  | playStart : MicEvent
  | playStop : MicEvent
deriving Repr, DecidableEq

/-- The state shared by the mic pump and the tool dispatcher: the
`_tool_idle` event, the `is_playing` flag, and the trace positions of the
chunks forwarded to Gemini so far. -/
structure MicState where
  toolIdle : Bool
  isPlaying : Bool
  forwarded : List Nat
deriving Repr, DecidableEq

/-- One step.  The `frame` case is the body of `send_mic_to_gemini`:
`if is_playing or not _tool_idle.is_set(): continue` — the chunk is
dropped, not queued and not retried; otherwise it is forwarded.  The check
and the decision are adjacent with no suspension point between them. -/
def micStep (s : MicState) (i : Nat) : MicEvent → MicState
  | .frame =>
      if s.isPlaying || !s.toolIdle then s
      else { s with forwarded := s.forwarded ++ [i] }
  | .acquire => { s with toolIdle := false }
  | .release => { s with toolIdle := true }
  | .playStart => { s with isPlaying := true }
  | .playStop => { s with isPlaying := false }

/-- Fold a trace of mic-path events, numbering events from `i`. -/
def micRunFrom (s : MicState) (i : Nat) : List MicEvent → MicState
  | [] => s
  | e :: es => micRunFrom (micStep s i e) (i + 1) es

/-- Initial state: `_tool_idle.set()` at module load, nothing playing,
nothing forwarded. -/
def micInit : MicState := { toolIdle := true, isPlaying := false, forwarded := [] }

/-- Run a whole trace from the initial state. -/
def micRun (es : List MicEvent) : MicState := micRunFrom micInit 0 es

-- ---------------------------------------------------------------------------
-- The playback queue as an event trace
-- (`test_live.py`: `audio_output_queue` line 687, `receive_from_gemini`
-- lines 788-805, `play_speaker` lines 822-830)
-- ---------------------------------------------------------------------------

/-- One scheduler step touching the playback queue.  `enqueue` is
`receive_from_gemini` running `audio_output_queue.put_nowait` for one audio
part (the part is identified by its event position); `deliver` is
`play_speaker` dequeuing the next chunk for the speaker; `interrupt` is the
interrupted branch draining the queue with
`while not audio_output_queue.empty(): get_nowait()` — a loop with no
suspension point, hence a single step here. -/
inductive DownEvent where
  | enqueue : DownEvent
  | deliver : DownEvent
  | interrupt : DownEvent
deriving Repr, DecidableEq

/-- The playback queue state: queued part tags and delivered part tags. -/
structure PlayState where
  queue : List Nat
  delivered : List Nat
deriving Repr, DecidableEq

/-- One step of the playback-queue trace. -/
def playStep (s : PlayState) (i : Nat) : DownEvent → PlayState
  | .enqueue => { s with queue := s.queue ++ [i] }
  | .deliver =>
      match s.queue with
      | [] => s
      | p :: rest => { queue := rest, delivered := s.delivered ++ [p] }
  | .interrupt => { s with queue := [] }

/-- Fold a trace of playback events, numbering events from `i`. -/
def playRunFrom (s : PlayState) (i : Nat) : List DownEvent → PlayState
  | [] => s
  | e :: es => playRunFrom (playStep s i e) (i + 1) es

/-- Initial playback state: empty queue, nothing delivered. -/
def playInit : PlayState := { queue := [], delivered := [] }

/-- Run a whole playback trace from the initial state. -/
def playRun (es : List DownEvent) : PlayState := playRunFrom playInit 0 es

-- ---------------------------------------------------------------------------
-- List decomposition helpers
-- ---------------------------------------------------------------------------

/-- Split a list at a valid index. -/
theorem list_decomp {α : Type} (es : List α) (i : Nat) (hi : i < es.length) :
    es = es.take i ++ es.get ⟨i, hi⟩ :: es.drop (i + 1) := by
  induction es generalizing i with
  | nil => simp at hi
  | cons e es ih =>
      cases i with
      | zero => rfl
      | succ i => exact congrArg (e :: ·) (ih i (Nat.lt_of_succ_lt_succ hi))

/-- Length of a strict-prefix take. -/
theorem take_len_of_lt {α : Type} (es : List α) (i : Nat) (hi : i < es.length) :
    (es.take i).length = i := by
  rw [List.length_take]
  omega

/-- A take of one more element appends the element at the cut. -/
theorem take_succ_decomp {α : Type} (es : List α) (i : Nat) (hi : i < es.length) :
    es.take (i + 1) = es.take i ++ [es.get ⟨i, hi⟩] := by
  induction es generalizing i with
  | nil => simp at hi
  | cons e es ih =>
      cases i with
      | zero => rfl
      | succ i => exact congrArg (e :: ·) (ih i (Nat.lt_of_succ_lt_succ hi))

-- ---------------------------------------------------------------------------
-- Mic-trace lemmas
-- ---------------------------------------------------------------------------

/-- Running a concatenated trace runs the pieces in order, with the event
counter advanced by the length of the first piece. -/
theorem micRunFrom_append (s : MicState) (i : Nat) (xs ys : List MicEvent) :
    micRunFrom s i (xs ++ ys) = micRunFrom (micRunFrom s i xs) (i + xs.length) ys := by
  induction xs generalizing s i with
  | nil => simp [micRunFrom]
  | cons x xs ih =>
      show micRunFrom (micStep s i x) (i + 1) (xs ++ ys) =
        micRunFrom (micRunFrom (micStep s i x) (i + 1) xs) (i + (x :: xs).length) ys
      rw [ih]
      congr 1
      simp only [List.length_cons]
      omega

/-- One mic step only ever adds its own event position to `forwarded`. -/
theorem micStep_forwarded_sub {s : MicState} {i j : Nat} {e : MicEvent}
    (h : j ∈ (micStep s i e).forwarded) : j ∈ s.forwarded ∨ j = i := by
  cases e with
  | frame =>
      simp only [micStep] at h
      by_cases hc : (s.isPlaying || !s.toolIdle) = true
      · rw [if_pos hc] at h
        exact Or.inl h
      · rw [if_neg hc] at h
        rcases List.mem_append.mp h with h1 | h1
        · exact Or.inl h1
        · simp at h1
          exact Or.inr h1
  | acquire => exact Or.inl h
  | release => exact Or.inl h
  | playStart => exact Or.inl h
  | playStop => exact Or.inl h

/-- Positions forwarded by a run starting at counter `i` are either old or
at least `i`. -/
theorem micRunFrom_forwarded_ge {j : Nat} :
    ∀ (es : List MicEvent) (s : MicState) (i : Nat),
      j ∈ (micRunFrom s i es).forwarded → j ∈ s.forwarded ∨ i ≤ j
  | [], _, _, h => Or.inl h
  | e :: es, s, i, h => by
      rcases micRunFrom_forwarded_ge es (micStep s i e) (i + 1) h with h1 | h1
      · rcases micStep_forwarded_sub h1 with h2 | h2
        · exact Or.inl h2
        · exact Or.inr (by omega)
      · exact Or.inr (by omega)

/-- Positions forwarded by a run starting at counter `i` are either old or
below `i` plus the trace length. -/
theorem micRunFrom_forwarded_lt {j : Nat} :
    ∀ (es : List MicEvent) (s : MicState) (i : Nat),
      j ∈ (micRunFrom s i es).forwarded → j ∈ s.forwarded ∨ j < i + es.length
  | [], _, _, h => Or.inl h
  | e :: es, s, i, h => by
      rcases micRunFrom_forwarded_lt es (micStep s i e) (i + 1) h with h1 | h1
      · rcases micStep_forwarded_sub h1 with h2 | h2
        · exact Or.inl h2
        · exact Or.inr (by simp only [List.length_cons]; omega)
      · exact Or.inr (by simp only [List.length_cons]; omega)

/-- With the gate closed, no step forwards anything: the frame branch of
`send_mic_to_gemini` hits the drop `continue`. -/
theorem micStep_gated {s : MicState} {i : Nat} (h : s.toolIdle = false) (e : MicEvent) :
    (micStep s i e).forwarded = s.forwarded := by
  cases e <;> simp [micStep, h]

-- ---------------------------------------------------------------------------
-- Playback-trace lemmas
-- ---------------------------------------------------------------------------

/-- Running a concatenated playback trace runs the pieces in order. -/
theorem playRunFrom_append (s : PlayState) (i : Nat) (xs ys : List DownEvent) :
    playRunFrom s i (xs ++ ys) = playRunFrom (playRunFrom s i xs) (i + xs.length) ys := by
  induction xs generalizing s i with
  | nil => simp [playRunFrom]
  | cons x xs ih =>
      show playRunFrom (playStep s i x) (i + 1) (xs ++ ys) =
        playRunFrom (playRunFrom (playStep s i x) (i + 1) xs) (i + (x :: xs).length) ys
      rw [ih]
      congr 1
      simp only [List.length_cons]
      omega

/-- Invariant: starting from a state whose queued tags all exceed `i` with
the event counter beyond `i`, anything newly delivered has a tag
exceeding `i` — deliveries only take from the queue, and all new queue
entries are tagged with later event positions. -/
theorem playRunFrom_delivered_after {i : Nat} :
    ∀ (es : List DownEvent) (s : PlayState) (n : Nat),
      (∀ q ∈ s.queue, i < q) → i < n →
      ∀ p ∈ (playRunFrom s n es).delivered, p ∈ s.delivered ∨ i < p := by
  intro es
  induction es with
  | nil =>
      intro s n _ _ p hp
      exact Or.inl hp
  | cons e rest ih =>
      intro s n hq hn p hp
      simp only [playRunFrom] at hp
      cases e with
      | enqueue =>
          have hq' : ∀ q ∈ (playStep s n DownEvent.enqueue).queue, i < q := by
            simp only [playStep]
            intro q hmem
            rcases List.mem_append.mp hmem with h | h
            · exact hq q h
            · simp at h
              omega
          exact ih (playStep s n .enqueue) (n + 1) hq' (by omega) p hp
      | deliver =>
          cases hqv : s.queue with
          | nil =>
              have hstep : playStep s n DownEvent.deliver = s := by
                simp [playStep, hqv]
              rw [hstep] at hp
              exact ih s (n + 1) hq (by omega) p hp
          | cons q qs =>
              have hstep : playStep s n DownEvent.deliver =
                  { queue := qs, delivered := s.delivered ++ [q] } := by
                simp [playStep, hqv]
              rw [hstep] at hp
              have hq' : ∀ x ∈ qs, i < x := fun x hx =>
                hq x (by rw [hqv]; exact List.mem_cons_of_mem _ hx)
              rcases ih _ (n + 1) hq' (by omega) p hp with h | h
              · rcases List.mem_append.mp h with h1 | h1
                · exact Or.inl h1
                · simp at h1
                  subst h1
                  exact Or.inr (hq p (by rw [hqv]; exact List.mem_cons_self _ _))
              · exact Or.inr h
      | interrupt =>
          have hq' : ∀ q ∈ (playStep s n DownEvent.interrupt).queue, i < q := by
            simp [playStep]
          exact ih _ (n + 1) hq' (by omega) p hp

/-- The playback-queue ordering half of the interruption guarantee: a part
delivered at any point after an `interrupt` event was enqueued after that
event — the drain leaves nothing older in the queue. -/
theorem playback_flush_ordering (es : List DownEvent) (i p : Nat)
    (hi : i < es.length) (hint : es.get ⟨i, hi⟩ = DownEvent.interrupt)
    (hdel : p ∈ (playRun es).delivered)
    (hnot : p ∉ (playRun (es.take (i + 1))).delivered) : i < p := by
  have h1 : playRun (es.take (i + 1)) =
      playStep (playRunFrom playInit 0 (es.take i)) i (es.get ⟨i, hi⟩) := by
    unfold playRun
    rw [take_succ_decomp es i hi, playRunFrom_append, take_len_of_lt es i hi,
        Nat.zero_add]
    rfl
  have h2 : playRun es =
      playRunFrom (playStep (playRunFrom playInit 0 (es.take i)) i (es.get ⟨i, hi⟩))
        (i + 1) (es.drop (i + 1)) := by
    unfold playRun
    conv_lhs => rw [list_decomp es i hi]
    rw [playRunFrom_append, take_len_of_lt es i hi, Nat.zero_add]
    rfl
  rw [hint] at h1 h2
  rw [h2] at hdel
  rw [h1] at hnot
  have hq : ∀ q ∈ (playStep (playRunFrom playInit 0 (es.take i)) i
      DownEvent.interrupt).queue, i < q := by
    simp [playStep]
  rcases playRunFrom_delivered_after (es.drop (i + 1)) _ (i + 1) hq (by omega) p hdel
    with h | h
  · exact absurd h hnot
  · exact h

/-- When the server-content block completes without raising and carries a
truthy `interrupted`, its sent frames include the `interrupted` frame. -/
theorem downlinkServerContent_interrupted (binaryOk : Bool) (sc : Json)
    (h3 : jtruthy (jgetD sc "interrupted" Json.null) = true)
    (h4 : (downlinkServerContent binaryOk sc).2 = false) :
    ClientFrame.interrupted ∈ (downlinkServerContent binaryOk sc).1 := by
  cases sc with
  | obj fs =>
      simp only [downlinkServerContent] at h4 ⊢
      by_cases hp : (downlinkTurnRes binaryOk (Json.obj fs)).2 = true
      · rw [if_pos hp] at h4
        rw [hp] at h4
        simp at h4
      · rw [if_neg hp]
        simp [h3, List.mem_append]
  | null => simp [downlinkServerContent] at h4
  | bool b => simp [downlinkServerContent] at h4
  | num n => simp [downlinkServerContent] at h4
  | str s => simp [downlinkServerContent] at h4
  | arr xs => simp [downlinkServerContent] at h4

/-- The downlink half of the interruption guarantee: on an upstream
message whose truthy `serverContent` carries a truthy `interrupted`, the
downlink loop forwards an `interrupted` frame to the client — provided
the iteration completes without raising (a malformed model-turn part
ends the loop before the `interrupted` send; see the counterexample). -/
theorem downlink_interrupted_emits (binaryOk : Bool) (data sc : Json)
    (h1 : jlookup data "serverContent" = some sc) (h2 : jtruthy sc = true)
    (h3 : jtruthy (jgetD sc "interrupted" Json.null) = true)
    (h4 : (downlinkHandle binaryOk data).2 = false) :
    ClientFrame.interrupted ∈ (downlinkHandle binaryOk data).1 := by
  cases data with
  | obj fields =>
      simp only [downlinkHandle, h1, h2, if_true] at h4 ⊢
      by_cases hsc : (downlinkServerContent binaryOk sc).2 = true
      · rw [if_pos hsc] at h4
        rw [hsc] at h4
        simp at h4
      · rw [if_neg hsc] at h4 ⊢
        have hscf : (downlinkServerContent binaryOk sc).2 = false := by
          cases hb : (downlinkServerContent binaryOk sc).2
          · rfl
          · exact absurd hb hsc
        have hmem := downlinkServerContent_interrupted binaryOk sc h3 hscf
        rcases htc : jlookup (Json.obj fields) "toolCall" with _ | tc
        · simp only [htc]
          exact hmem
        · simp only [htc]
          by_cases htr : jtruthy tc = true
          · rw [if_pos htr]
            cases tc <;> simp [List.mem_append, hmem]
          · rw [if_neg htr]
            exact hmem
  | null => simp [jlookup] at h1
  | bool b => simp [jlookup] at h1
  | num n => simp [jlookup] at h1
  | str s => simp [jlookup] at h1
  | arr xs => simp [jlookup] at h1

-- ---------------------------------------------------------------------------
-- Claims
-- ---------------------------------------------------------------------------

/-- Claim C1: gate invariant.  For every interleaving of mic frames, tool
dispatches and playback toggles, an audio frame received strictly between
the gate acquisition (`_tool_idle.clear()`) and its release
(`_tool_idle.set()`) is never forwarded upstream: `send_mic_to_gemini`
checks the gate before forwarding any frame and drops the frame when the
gate is not idle — the drop neither queues nor retries it, so the frame
position never enters the forwarded list. -/
theorem gate_blocks_audio_during_tool_call (es : List MicEvent) (i : Nat)
    (hi : i < es.length)
    (hclosed : (micRunFrom micInit 0 (es.take i)).toolIdle = false) :
    i ∉ (micRun es).forwarded := by
  intro hmem
  have hrun : micRun es =
      micRunFrom (micStep (micRunFrom micInit 0 (es.take i)) i (es.get ⟨i, hi⟩))
        (i + 1) (es.drop (i + 1)) := by
    unfold micRun
    conv_lhs => rw [list_decomp es i hi]
    rw [micRunFrom_append, take_len_of_lt es i hi, Nat.zero_add]
    rfl
  rw [hrun] at hmem
  rcases micRunFrom_forwarded_ge (es.drop (i + 1)) _ (i + 1) hmem with h1 | h1
  · rw [micStep_gated hclosed] at h1
    rcases micRunFrom_forwarded_lt (es.take i) micInit 0 h1 with h2 | h2
    · simp [micInit] at h2
    · rw [take_len_of_lt es i hi] at h2
      omega
  · omega

/-- Claim C1 witness: in the trace acquire–frame–release, the frame (event
position 1) arrives with the gate closed and is not forwarded. -/
theorem gate_blocks_audio_during_tool_call_witness :
    (micRunFrom micInit 0
        ([MicEvent.acquire, MicEvent.frame, MicEvent.release].take 1)).toolIdle = false ∧
    1 ∉ (micRun [MicEvent.acquire, MicEvent.frame, MicEvent.release]).forwarded :=
  ⟨by decide,
   gate_blocks_audio_during_tool_call [MicEvent.acquire, MicEvent.frame, MicEvent.release]
     1 (by decide) (by decide)⟩

/-- An upstream message whose truthy server content carries a truthy
`interrupted` but whose model turn holds a malformed (non-dict) part: the
Python downlink loop raises `AttributeError` at `part.get("inlineData")`
and ends before the `interrupted` send. -/
def cexBadPartMsg : Json :=
  Json.obj [("serverContent", Json.obj
    [("modelTurn", Json.obj [("parts", Json.arr [Json.str "z"])]),
     ("interrupted", Json.bool true)])]

/-- Claim C4 counterexample: the claim as stated — an interrupted event is
always forwarded when an interrupted signal arrives — fails on the
concrete upstream message whose model turn contains the non-dict part
`"z"` alongside `interrupted: true`: the iteration raises at
`part.get` before reaching the `interrupted` send, so it forwards no
frame at all and the downlink loop ends. -/
theorem interrupted_not_forwarded_on_bad_part :
    jlookup cexBadPartMsg "serverContent"
        = some (Json.obj
            [("modelTurn", Json.obj [("parts", Json.arr [Json.str "z"])]),
             ("interrupted", Json.bool true)]) ∧
    jtruthy (jgetD (Json.obj
        [("modelTurn", Json.obj [("parts", Json.arr [Json.str "z"])]),
         ("interrupted", Json.bool true)]) "interrupted" Json.null) = true ∧
    (downlinkHandle true cexBadPartMsg).1 = [] ∧
    (downlinkHandle true cexBadPartMsg).2 = true :=
  ⟨by rfl, by rfl, by rfl, by rfl⟩

/-- Claim C4 (amended): interruption ordering.  (a) When an upstream
message carries a truthy `serverContent.interrupted` and the downlink
iteration completes without raising, the downlink loop forwards an
`interrupted` frame to the client (a malformed model-turn part raises
before the `interrupted` send and nothing is forwarded — see the
counterexample).  (b) In every playback trace, a part delivered after an
`interrupt` event (the queue drain) was enqueued after that event, so
none of the parts queued for playback before the interruption is
delivered after it. -/
theorem interrupted_event_and_flush_ordering :
    (∀ (binaryOk : Bool) (data sc : Json),
        jlookup data "serverContent" = some sc → jtruthy sc = true →
        jtruthy (jgetD sc "interrupted" Json.null) = true →
        (downlinkHandle binaryOk data).2 = false →
        ClientFrame.interrupted ∈ (downlinkHandle binaryOk data).1) ∧
    (∀ (es : List DownEvent) (i p : Nat) (hi : i < es.length),
        es.get ⟨i, hi⟩ = DownEvent.interrupt →
        p ∈ (playRun es).delivered →
        p ∉ (playRun (es.take (i + 1))).delivered → i < p) :=
  ⟨downlink_interrupted_emits, playback_flush_ordering⟩

/-- An upstream message whose server content is just an interruption. -/
def cexInterruptMsg : Json :=
  Json.obj [("serverContent", Json.obj [("interrupted", Json.bool true)])]

/-- Claim C4 witness: the well-formed interruption message is handled
without raising and yields an `interrupted` frame, and in the trace
enqueue–interrupt–enqueue–deliver the delivered part (enqueued at
position 2) postdates the interrupt at position 1. -/
theorem interrupted_event_and_flush_ordering_witness :
    (downlinkHandle true cexInterruptMsg).2 = false ∧
    ClientFrame.interrupted ∈ (downlinkHandle true cexInterruptMsg).1 ∧ 1 < 2 :=
  ⟨by rfl,
   interrupted_event_and_flush_ordering.1 true cexInterruptMsg
      (Json.obj [("interrupted", Json.bool true)]) (by rfl) (by rfl) (by rfl) (by rfl),
   interrupted_event_and_flush_ordering.2
      [DownEvent.enqueue, DownEvent.interrupt, DownEvent.enqueue, DownEvent.deliver]
      1 2 (by decide) (by decide) (by decide) (by decide)⟩

-- ---------------------------------------------------------------------------
-- Claim C2: the 2048-byte tool-result bound
-- ---------------------------------------------------------------------------

/-- Length of the escaped form of `n` copies of a plain letter. -/
theorem escList_length_replicate (n : Nat) :
    ((List.replicate n 'a').foldr (fun c acc => escChar c ++ acc) "").length = n := by
  induction n with
  | zero => rfl
  | succ n ih =>
      rw [List.replicate_succ, List.foldr_cons, String.length_append, ih,
          show (escChar 'a').length = 1 from rfl]
      omega

/-- Serialized length of a JSON string: the escaped body plus two quotes. -/
theorem dumps_str_length (s : String) :
    (dumps (Json.str s)).length = (escString s).length + 2 := by
  show ("\"" ++ (escString s ++ "\"")).length = (escString s).length + 2
  rw [String.length_append, String.length_append,
      show ("\"" : String).length = 1 from rfl]
  omega

/-- The serialization of an object is at least as long as the serialization
of its first field value. -/
theorem dumps_obj_field_le (k : String) (v : Json) (rest : List (String × Json)) :
    (dumps v).length ≤ (dumps (Json.obj ((k, v) :: rest))).length := by
  cases rest with
  | nil =>
      show (dumps v).length ≤
        ("\x7b" ++ (("\"" ++ (escString k ++ ("\": " ++ dumps v))) ++ "\x7d")).length
      simp only [String.length_append]
      omega
  | cons f fs =>
      show (dumps v).length ≤
        ("\x7b" ++ (("\"" ++ (escString k ++ ("\": " ++ (dumps v ++
          (", " ++ dumpsFields (f :: fs)))))) ++ "\x7d")).length
      simp only [String.length_append]
      omega

/-- A 2100-character status value: its serialization is 2114 characters
long, so `_handle_tool_call` truncates it — but copies it verbatim into
the `status` field of the truncated payload. -/
def bigStatus : String := String.mk (List.replicate 2100 'a')

/-- A tool result whose serialization exceeds the cap. -/
def cexToolResult : Json := Json.obj [("status", Json.str bigStatus)]

/-- The counterexample tool result serializes to more than 2048 bytes. -/
theorem cex_oversize : 2048 < (dumps cexToolResult).length := by
  have hesc : (escString bigStatus).length = 2100 := escList_length_replicate 2100
  have hbig : (dumps (Json.str bigStatus)).length = 2102 := by
    rw [dumps_str_length, hesc]
  have hle : (dumps (Json.str bigStatus)).length ≤ (dumps cexToolResult).length :=
    dumps_obj_field_le "status" (Json.str bigStatus) []
  omega

/-- Claim C2 counterexample: the claim asserts every tool-response payload
sent upstream satisfies sizeBytes ≤ 2048, but for a tool result whose
`status` field is a 2100-character string the truncation branch fires
(serialization exceeds the 2000-character threshold) and the truncated
`{status, component, summary}` payload — which copies the oversized
`status` value — itself serializes to more than 2048 bytes. -/
theorem tool_result_size_cap_violated :
    2000 < (dumps cexToolResult).length ∧
    2048 < (dumps (handle_tool_call "abc" "run_inspection"
        (Except.ok cexToolResult)).sent.response).length := by
  have hcex := cex_oversize
  constructor
  · omega
  · have hgt : (dumps cexToolResult).length > 2000 := by omega
    have hresp : (handle_tool_call "abc" "run_inspection"
        (Except.ok cexToolResult)).sent.response =
        Json.obj [("status", Json.str bigStatus),
                  ("component", Json.str ""),
                  ("summary", Json.str (pyTake (dumps cexToolResult) 800))] := by
      simp only [handle_tool_call, capToolResult]
      rw [if_pos hgt]
      rfl
    rw [hresp]
    have hesc : (escString bigStatus).length = 2100 := escList_length_replicate 2100
    have hbig : (dumps (Json.str bigStatus)).length = 2102 := by
      rw [dumps_str_length, hesc]
    have hle := dumps_obj_field_le "status" (Json.str bigStatus)
      [("component", Json.str ""),
       ("summary", Json.str (pyTake (dumps cexToolResult) 800))]
    omega

/-- Claim C2 (amended): whenever a tool result serializes to more than
2048 bytes the truncation branch fires (its threshold is in fact 2000
serialized characters), and the payload sent upstream is the
`{status, component, summary}` shape — `summary` being the first 800
characters of the original serialization — still carried under the
original ToolCall id and name.  The truncated payload is not re-checked
against the 2048-byte bound and can itself exceed it (see the
counterexample). -/
theorem oversize_tool_result_truncation (tr : Json) (fnId fnName : String)
    (h : 2048 < (dumps tr).length) :
    (handle_tool_call fnId fnName (Except.ok tr)).sent.id = fnId ∧
    (handle_tool_call fnId fnName (Except.ok tr)).sent.name = fnName ∧
    (handle_tool_call fnId fnName (Except.ok tr)).sent.response =
      Json.obj [("status", jgetD tr "status" (Json.str "complete")),
                ("component", jgetD tr "component" (Json.str "")),
                ("summary", Json.str (pyTake (dumps tr) 800))] := by
  refine ⟨rfl, rfl, ?_⟩
  have h2 : (dumps tr).length > 2000 := by omega
  simp only [handle_tool_call, capToolResult]
  rw [if_pos h2]

/-- Claim C2 witness: the truncation applied to the concrete oversized
result, preserving id and name. -/
theorem oversize_tool_result_truncation_witness :
    2048 < (dumps cexToolResult).length ∧
    ((handle_tool_call "abc" "run_inspection" (Except.ok cexToolResult)).sent.id = "abc" ∧
     (handle_tool_call "abc" "run_inspection" (Except.ok cexToolResult)).sent.name
        = "run_inspection" ∧
     (handle_tool_call "abc" "run_inspection" (Except.ok cexToolResult)).sent.response =
       Json.obj [("status", jgetD cexToolResult "status" (Json.str "complete")),
                 ("component", jgetD cexToolResult "component" (Json.str "")),
                 ("summary", Json.str (pyTake (dumps cexToolResult) 800))]) :=
  ⟨cex_oversize,
   oversize_tool_result_truncation cexToolResult "abc" "run_inspection" cex_oversize⟩

-- ---------------------------------------------------------------------------
-- Claims C3 and C5-C10
-- ---------------------------------------------------------------------------

/-- A well-formed non-config first message: base64 audio from the client. -/
def cexFirstAudio : Json :=
  Json.obj [("type", Json.str "audio"), ("data", Json.str "QUJD")]

/-- Claim C3 (code bug): the claim — and the comment in the router itself,
which says the relay will handle the first message — require the first
non-config message received during the 2-second window to be processed as
if it had arrived after negotiation.  The code instead consumes it in
`ws.receive_text()` and never re-injects it.  Evaluated at a concrete
audio message arriving inside the window: negotiation falls back to the
defaults and records the message as dropped, and the whole session
forwards nothing but the setup message upstream — whereas the same
message arriving after the window is forwarded as a realtime chunk. -/
theorem first_nonconfig_message_dropped :
    (negotiate (some (ClientMsg.text cexFirstAudio))).dropped
        = some (ClientMsg.text cexFirstAudio) ∧
    (negotiate (some (ClientMsg.text cexFirstAudio))).config = defaultConfig ∧
    (gemini_live_relay "key" (some (ClientMsg.text cexFirstAudio))
        (some Json.null) []).upstreamSent
        = [build_setup_message defaultConfig] ∧
    (gemini_live_relay "key" none (some Json.null)
        [ClientMsg.text cexFirstAudio]).upstreamSent
        = [build_setup_message defaultConfig,
           realtimeChunk (Json.str "QUJD") (Json.str "audio/pcm;rate=16000")] :=
  ⟨by rfl, by rfl, by rfl, by rfl⟩

/-- Claim C5: when the upstream setup acknowledgement does not arrive
within the 15-second wait, `start` sends the client exactly one error
frame, never creates the pump loops, and tears down via `close()`; the
only upstream traffic is the already-sent setup message. -/
theorem setup_timeout_fails_session (config : LiveSessionConfig)
    (msgs : List ClientMsg) :
    relay_start config none msgs =
      { userFrames := [ClientFrame.error "Gemini setup timed out — check API key"]
        loopsStarted := false
        upstreamSent := [build_setup_message config]
        closed := true } := rfl

/-- Claim C6: with no API key configured, the endpoint sends one
structured error frame, closes the client socket with code 4001 and
returns — no config is negotiated, no upstream connection is attempted,
and no pump loop starts, whatever the client sends. -/
theorem auth_missing_fails_fast (w : Option ClientMsg) (a : Option Json)
    (m : List ClientMsg) :
    gemini_live_relay "" w a m =
      { clientFrames := [ClientFrame.error "GEMINI_API_KEY not configured on server"]
        clientCloseCode := some 4001
        upstreamAttempted := false
        config := none
        droppedDuringNegotiation := none
        upstreamSent := []
        loopsStarted := false } := rfl

/-- Claim C7: when the executor raises, `_handle_tool_call` sends the
synthetic error response `{"error": "Tool call failed: <message>"}` still
correlated by the original call id and name, and the `finally` block
releases the gate on that exit path exactly as on the success path. -/
theorem executor_exception_error_response (fnId fnName e : String) :
    (handle_tool_call fnId fnName (Except.error e)).sent =
      { id := fnId, name := fnName
        response := Json.obj [("error", Json.str ("Tool call failed: " ++ e))] } ∧
    (handle_tool_call fnId fnName (Except.error e)).gateIdleAfter = true ∧
    (∀ tr : Json, (handle_tool_call fnId fnName (Except.ok tr)).gateIdleAfter = true) :=
  ⟨rfl, rfl, fun _ => rfl⟩

/-- Claim C8: teardown is idempotent — `close` on an already-closed relay
returns it unchanged (the `_closed` early return; the function is total,
modelling that it never raises), and closing twice yields the same
terminal state as closing once. -/
theorem close_idempotent :
    (∀ s : RelayCloseState, close (close s) = close s) ∧
    (∀ s : RelayCloseState, s.closed = true → close s = s) := by
  constructor
  · intro s
    by_cases h : s.closed <;> simp [close, h]
  · intro s h
    simp [close, h]

/-- Claim C8 witness: closing twice from an open state equals closing
once, and closing an already-closed state is a no-op. -/
theorem close_idempotent_witness :
    close (close ⟨false, false, true⟩) = close ⟨false, false, true⟩ ∧
    close ⟨true, true, false⟩ = ⟨true, true, false⟩ :=
  ⟨close_idempotent.1 ⟨false, false, true⟩, close_idempotent.2 ⟨true, true, false⟩ rfl⟩

/-- Claim C9: a client that sends raw binary audio with no prior config
message: the 2-second window elapses, the session uses the process
defaults (default model, voice, `["AUDIO"]` modalities), the setup message
carries the default model, and the bytes are forwarded upstream as a
realtime audio chunk — base64-encoded, with the default capture format
`audio/pcm;rate=16000`. -/
theorem binary_audio_default_session (apiKey : String) (b : Nat) (bs : List Nat)
    (hk : apiKey.isEmpty = false) :
    (gemini_live_relay apiKey none (some Json.null) [ClientMsg.binary (b :: bs)]).config
        = some defaultConfig ∧
    defaultConfig.model = GEMINI_MODEL ∧
    defaultConfig.voice = GEMINI_VOICE ∧
    defaultConfig.response_modalities = ["AUDIO"] ∧
    jpath (build_setup_message defaultConfig) ["setup", "model"]
        = some (Json.str ("models/" ++ GEMINI_MODEL)) ∧
    (gemini_live_relay apiKey none (some Json.null)
        [ClientMsg.binary (b :: bs)]).upstreamSent
        = [build_setup_message defaultConfig,
           realtimeChunk (Json.str (b64encode (b :: bs)))
             (Json.str "audio/pcm;rate=16000")] := by
  simp only [gemini_live_relay, hk, Bool.false_eq_true, if_false]
  exact ⟨rfl, rfl, rfl, rfl, by rfl, rfl⟩

/-- Claim C9 witness: three concrete bytes with a concrete key. -/
theorem binary_audio_default_session_witness :
    ("key" : String).isEmpty = false ∧
    ((gemini_live_relay "key" none (some Json.null)
        [ClientMsg.binary [1, 2, 0]]).config = some defaultConfig ∧
     defaultConfig.model = GEMINI_MODEL ∧
     defaultConfig.voice = GEMINI_VOICE ∧
     defaultConfig.response_modalities = ["AUDIO"] ∧
     jpath (build_setup_message defaultConfig) ["setup", "model"]
        = some (Json.str ("models/" ++ GEMINI_MODEL)) ∧
     (gemini_live_relay "key" none (some Json.null)
        [ClientMsg.binary [1, 2, 0]]).upstreamSent
        = [build_setup_message defaultConfig,
           realtimeChunk (Json.str (b64encode [1, 2, 0]))
             (Json.str "audio/pcm;rate=16000")]) :=
  ⟨rfl, binary_audio_default_session "key" 1 [2, 0] rfl⟩

/-- Claim C10: the response-modalities list is not client-configurable.
Whatever the negotiation input — timeout, binary frame, malformed text, a
non-config message, or a config message overriding model, voice, system
prompt and tools — the resulting session config has
`response_modalities = ["AUDIO"]`, and the setup message built from it
carries exactly that list. -/
theorem response_modalities_not_configurable (m : Option ClientMsg) :
    (negotiate m).config.response_modalities = ["AUDIO"] ∧
    jpath (build_setup_message (negotiate m).config)
        ["setup", "generation_config", "response_modalities"]
      = some (Json.arr [Json.str "AUDIO"]) := by
  have h : (negotiate m).config.response_modalities = ["AUDIO"] := by
    cases m with
    | none => rfl
    | some msg =>
        cases msg with
        | binary bs => rfl
        | badText => rfl
        | text j =>
            simp only [negotiate]
            split
            · rfl
            · rfl
  refine ⟨h, ?_⟩
  simp only [build_setup_message]
  rw [h]
  rfl

end SymCat
